import Mathlib

namespace Turg

/-- Session identifier: models the identity of one live WebSocketResponse
object (what the source keys by `id(ws)`). -/
abbrev Sid := Nat

/-- A user color token, as issued by the identity service. -/
abbrev Color := String

/-- A Python value as it appears in the handler: the JSON-derived values
(`None`, bool, int, str, list, dict) plus Python set literals, which the
source builds in two error envelopes and which are not JSON-serializable. -/
inductive PyVal where
  | nil
  | bool (b : Bool)
  | int (n : Int)
  | str (s : String)
  | list (xs : List PyVal)
  | dict (fields : List (String × PyVal))
  | pyset (xs : List String)

/-- Python `str.lower()`, as applied on line 87 to the envelope's `type`
(protocol method names are ASCII). -/
def pyLower (s : String) : String := String.mk (s.data.map Char.toLower)

/-- Python `d[k]` / `k in d` lookup on a dict, modelled as an association
list in insertion order. -/
def dictGet (fields : List (String × PyVal)) (k : String) : Option PyVal :=
  (fields.find? (fun kv => kv.1 == k)).map (fun kv => kv.2)

/-- Python `d.get(k, default)`. -/
def dictGetD (fields : List (String × PyVal)) (k : String) (d : PyVal) : PyVal :=
  (dictGet fields k).getD d

/-- Python `d.pop(k, None)`: the dict with key `k` removed. -/
def dictPop (fields : List (String × PyVal)) (k : String) : List (String × PyVal) :=
  fields.filter (fun kv => !(kv.1 == k))

/-- Python `d[k] = v`: update in place when the key exists, else append. -/
def dictSet (fields : List (String × PyVal)) (k : String) (v : PyVal) :
    List (String × PyVal) :=
  if fields.any (fun kv => kv.1 == k) then
    fields.map (fun kv => if kv.1 == k then (k, v) else kv)
  else
    fields ++ [(k, v)]

mutual

/-- Whether `json.dumps` (used by `ws.send_json`) accepts the value: true
unless a Python set occurs anywhere inside it. -/
def serializable : PyVal → Bool
  | PyVal.nil => true
  | PyVal.bool _ => true
  | PyVal.int _ => true
  | PyVal.str _ => true
  | PyVal.pyset _ => false
  | PyVal.list xs => serializableList xs
  | PyVal.dict fs => serializableFields fs

/-- Serializability of every element of a list value. -/
def serializableList : List PyVal → Bool
  | [] => true
  | x :: xs => serializable x && serializableList xs

/-- Serializability of every value of a dict. -/
def serializableFields : List (String × PyVal) → Bool
  | [] => true
  | kv :: fs => serializable kv.2 && serializableFields fs

end

/-- One successful delivery of a JSON message to a socket. -/
structure SendEvent where
  target : Sid
  msg : PyVal

/-- Models `await ws.send_json(msg)`: the send raises (broken socket, given
by the `fails` oracle, or `TypeError` from `json.dumps` on a value holding a
Python set) and delivers nothing, or succeeds and delivers `msg`. -/
def sendJson (fails : Sid → Bool) (target : Sid) (msg : PyVal) : Option SendEvent :=
  if fails target || !serializable msg then Option.none
  else some { target := target, msg := msg }

/-- The response metadata built in `process_request`:
`meta = dict with id = data.get id None and type = data-type lowercased`. -/
structure Meta where
  id : PyVal
  type : String

/-- The `meta` dict as placed into outbound envelopes. -/
def metaToVal (m : Meta) : PyVal :=
  PyVal.dict [("id", m.id), ("type", PyVal.str m.type)]

/-- An outbound error envelope `dict of error.message and meta`. -/
def errEnvelope (message : PyVal) (m : Meta) : PyVal :=
  PyVal.dict [("error", PyVal.dict [("message", message)]), ("meta", metaToVal m)]

/-- The envelope the unknown-method branch passes to `send_json`
(websocket.py lines 96-99).  Its `message` value is the Python set literal
written in the source, not a plain string. -/
def unknownMethodEnvelope (m : Meta) : PyVal :=
  PyVal.dict
    [("error", PyVal.dict
        [("message", PyVal.pyset ["Unknown method or no method specified"])]),
     ("meta", metaToVal m)]

/-- The warning sent when the rate limiter reports the limit exceeded
(websocket.py lines 49-50); note it carries no `meta`. -/
def warnEnvelope (reqLimit : Nat) : PyVal :=
  PyVal.dict [("error", PyVal.dict
    [("message", PyVal.str
      ("Requests limit of " ++ toString reqLimit ++ " per minute exceeded"))])]

/-- The dedicated message pushed right after registration
(websocket.py lines 38-41). -/
def userColorMsg (c : Color) : PyVal :=
  PyVal.dict [("data", PyVal.dict [("color", PyVal.str c)]),
              ("meta", PyVal.dict [("type", PyVal.str "userColor")])]

/-- Modelled from the spec: the Cell/Voxel record of the external store
(`turg.models.Voxel`, not under src/): position, owner color, an optional
display name defaulting to empty, and the internal last-modified timestamp
`updated` that the store stamps. -/
structure Voxel where
  x : Int
  y : Int
  owner : String
  name : String
  updated : Int

/-- Python `attr.asdict(voxel)`. -/
def voxelAsDict (v : Voxel) : List (String × PyVal) :=
  [("x", PyVal.int v.x), ("y", PyVal.int v.y), ("owner", PyVal.str v.owner),
   ("name", PyVal.str v.name), ("updated", PyVal.int v.updated)]

/-- The client-facing projection built at the top of `broadcast`
(websocket.py lines 133-137): drop `updated`, and drop `name` when it is
falsy (the empty string). -/
def broadcastProjection (v : Voxel) : List (String × PyVal) :=
  let d := dictPop (voxelAsDict v) "updated"
  if v.name = "" then dictPop d "name" else d

/-- The message `broadcast` sends to each registered socket. -/
def broadcastMessage (v : Voxel) (m : Meta) : PyVal :=
  PyVal.dict [("data", PyVal.dict (broadcastProjection v)), ("meta", metaToVal m)]

/-- The shared application state the handler touches: the live-socket list
`app['websockets']` and the color dict `app['websockets_colors']` keyed by
`id(ws)`. -/
structure App where
  websockets : List Sid
  websockets_colors : List (Sid × Color)

/-- Python `app['websockets_colors'][id(ws)]`, as an optional lookup
(a missing key raises `KeyError` at the call site). -/
def lookupColor (a : App) (ws : Sid) : Option Color :=
  (a.websockets_colors.find? (fun kv => kv.1 == ws)).map (fun kv => kv.2)

/-- Python dict assignment on the color map. -/
def dictSetColor (m : List (Sid × Color)) (k : Sid) (c : Color) :
    List (Sid × Color) :=
  if m.any (fun kv => kv.1 == k) then
    m.map (fun kv => if kv.1 == k then (k, c) else kv)
  else
    m ++ [(k, c)]

/-- Websocket.get lines 35-36: append the socket to `websockets` and record
its color in `websockets_colors`. -/
def registerSession (a : App) (ws : Sid) (c : Color) : App :=
  { websockets := a.websockets ++ [ws],
    websockets_colors := dictSetColor a.websockets_colors ws c }

/-- Python `list.remove`: delete the first occurrence, or raise
`ValueError` when the element is absent (the error case). -/
def pythonListRemove (l : List Sid) (s : Sid) : Except Unit (List Sid) :=
  match l with
  | [] => Except.error ()
  | x :: xs =>
    if x = s then Except.ok xs
    else
      match pythonListRemove xs s with
      | Except.ok ys => Except.ok (x :: ys)
      | Except.error e => Except.error e

/-- The send loop of `broadcast` (websocket.py lines 139-144): try to send
to each socket in turn; a raise from one send is caught and logged, and the
loop continues with the remaining sockets. -/
def broadcastLoop (sessions : List Sid) (msg : PyVal) (fails : Sid → Bool) :
    List SendEvent :=
  match sessions with
  | [] => []
  | s :: rest =>
    match sendJson fails s msg with
    | some ev => ev :: broadcastLoop rest msg fails
    | Option.none => broadcastLoop rest msg fails

/-- What a dispatched request produced: the successful deliveries (direct
responses and broadcast fan-out) and the list of `broadcast` invocations. -/
structure DispatchResult where
  events : List SendEvent
  broadcasts : List (Voxel × Meta)

/-- Full `broadcast(data, app, meta)` (websocket.py lines 132-144) on the
voxel coming from `store_voxel`, together with the app state it leaves
behind: the function reads `app['websockets']` and never mutates it. -/
def broadcast (v : Voxel) (a : App) (m : Meta) (fails : Sid → Bool) :
    DispatchResult × App :=
  ({ events := broadcastLoop a.websockets (broadcastMessage v m) fails,
     broadcasts := [(v, m)] }, a)

/-- Modelled from the spec: the outcome of `store_voxel` / `upsertCell`
(`turg.models`, not under src/).  On success the store returns the stored
cell — the submitted record with the internal `updated` timestamp stamped;
on failure it raises `ValueError` whose first argument may be a structured
dict, otherwise a plain message string. -/
inductive StoreResult where
  | ok (stamp : Int)
  | errPlain (msg : String)
  | errStructured (err : List (String × PyVal))

/-- Modelled from the spec: construction `Voxel(**args)` of the external
attrs class (`turg.models.Voxel`, not under src/): it accepts keyword
arguments `x`, `y`, `owner` (ints and a string) and raises `TypeError` —
which `place` does not catch — on anything else. -/
def mkVoxel (fields : List (String × PyVal)) : Option Voxel :=
  match dictGet fields "x", dictGet fields "y", dictGet fields "owner" with
  | some (PyVal.int x), some (PyVal.int y), some (PyVal.str o) =>
    if fields.all (fun kv => kv.1 == "x" || kv.1 == "y" || kv.1 == "owner") then
      some { x := x, y := y, owner := o, name := "", updated := 0 }
    else Option.none
  | _, _, _ => Option.none

/-- The external collaborators the handler calls, as oracles: `get_voxels`
(the store's range query), `verify_payload`, the `store_voxel` outcome,
which sockets raise on send, and `ratelimiter.requests` (the configured
per-minute limit, used only in the warning text). -/
structure Ext where
  query : PyVal → PyVal → PyVal → PyVal
  verify : List (String × PyVal) → Bool
  store : Voxel → StoreResult
  sendFails : Sid → Bool
  reqLimit : Nat

/-- The `return await ws.send_json(res)` pattern shared by the handler
paths that answer with a single message: the send either delivers exactly
that message or raises, and the raise propagates (`none`). -/
def sendOnly (fails : Sid → Bool) (ws : Sid) (msg : PyVal) : Option DispatchResult :=
  match sendJson fails ws msg with
  | some ev => some { events := [ev], broadcasts := [] }
  | Option.none => Option.none

/-- Function `retrieve(args, ws, app, meta)` (websocket.py lines 102-105).  `none`
means an exception escaped: `args.get` on a non-dict raises
`AttributeError`, and a failed `send_json` propagates. -/
def retrieve (args : PyVal) (ws : Sid) (ext : Ext) (m : Meta) :
    Option DispatchResult :=
  match args with
  | PyVal.dict af =>
    let x := dictGetD af "x" (PyVal.int 0)
    let y := dictGetD af "y" (PyVal.int 0)
    let r := dictGetD af "range" (PyVal.int 25)
    sendOnly ext.sendFails ws
      (PyVal.dict [("data", ext.query x y r), ("meta", metaToVal m)])
  | _ => Option.none

/-- Function `place(args, ws, app, meta)` (websocket.py lines 108-129): pop the
untrusted `name`, validate, stamp `owner` from the color registry (a
missing color raises `KeyError`, caught like store errors), build the
voxel, store it, and on success hand the stored voxel to `broadcast`.
`none` means an uncaught exception escaped. -/
def place (args : PyVal) (ws : Sid) (a : App) (ext : Ext) (m : Meta) :
    Option DispatchResult :=
  match args with
  | PyVal.dict af0 =>
    let af1 := dictPop af0 "name"
    if ext.verify af1 = false then
      sendOnly ext.sendFails ws (errEnvelope (PyVal.str "Invalid payload") m)
    else
      match lookupColor a ws with
      | Option.none =>
        sendOnly ext.sendFails ws (errEnvelope (PyVal.str (toString ws)) m)
      | some color =>
        let af2 := dictSet af1 "owner" (PyVal.str color)
        match mkVoxel af2 with
        | Option.none => Option.none
        | some v =>
          match ext.store v with
          | StoreResult.ok stamp =>
            some (broadcast { v with updated := stamp } a m ext.sendFails).1
          | StoreResult.errPlain s =>
            sendOnly ext.sendFails ws (errEnvelope (PyVal.str s) m)
          | StoreResult.errStructured d =>
            sendOnly ext.sendFails ws
              (PyVal.dict [("error", PyVal.dict d), ("meta", metaToVal m)])
  | _ => Option.none

/-- Function `process_request(data, ws, app)` (websocket.py lines 82-99).  A
malformed message (not a dict, or missing `type` or `args`) makes the
function return an error dict to its caller — which discards it — without
sending or dispatching anything.  A non-string `type` raises
`AttributeError` from `.lower()` (`none`). -/
def process_request (data : PyVal) (ws : Sid) (a : App) (ext : Ext) :
    Option DispatchResult :=
  match data with
  | PyVal.dict fs =>
    match dictGet fs "type", dictGet fs "args" with
    | some tVal, some args =>
      match tVal with
      | PyVal.str t =>
        let m : Meta := { id := dictGetD fs "id" PyVal.nil, type := pyLower t }
        if pyLower t = "range" then retrieve args ws ext m
        else if pyLower t = "update" then place args ws a ext m
        else
          sendOnly ext.sendFails ws (unknownMethodEnvelope m)
      | _ => Option.none
    | _, _ => some { events := [], broadcasts := [] }
  | _ => some { events := [], broadcasts := [] }

/-- One inbound websocket frame.  For a text frame, `parsed` is the oracle
result of the stdlib call `json.loads raw`: `none` models a parse failure.
`errFrame` is a `WSMsgType.error` frame, which is only logged. -/
inductive Frame where
  | text (raw : String) (parsed : Option PyVal)
  | errFrame

/-- The effect of handling one received frame in the `async for` loop:
continue looping, stop because the server called `ws.close()`, or abort the
whole loop because an exception escaped the body. -/
inductive StepOut where
  | cont (evs : List SendEvent) (bcasts : List (Voxel × Meta))
  | closed
  | crashed

/-- The body of the receive loop (websocket.py lines 45-66) for one frame.
The rate-limit verdict `exceeded` (the oracle result of
`ratelimiter.limit_exceeded(uid)`, external repo code) is consulted first,
before the frame's type or the close sentinel is ever examined; when the
limit is exceeded a warning is sent and the frame is skipped. -/
def stepFrame (ws : Sid) (a : App) (ext : Ext) (f : Frame) (exceeded : Bool) :
    StepOut :=
  if exceeded then
    match sendJson ext.sendFails ws (warnEnvelope ext.reqLimit) with
    | some ev => StepOut.cont [ev] []
    | Option.none => StepOut.crashed
  else
    match f with
    | Frame.text raw parsed =>
      if raw = "close" then StepOut.closed
      else
        match parsed with
        | Option.none => StepOut.cont [] []
        | some data =>
          match process_request data ws a ext with
          | some r => StepOut.cont r.events r.broadcasts
          | Option.none => StepOut.crashed
    | Frame.errFrame => StepOut.cont [] []

/-- How the receive loop ended: the client side closed (iteration ran out),
the server closed (`ws.close()`), or an exception escaped the loop body. -/
inductive LoopExit where
  | finished
  | serverClosed
  | crashed
deriving DecidableEq

/-- The whole receive loop over the incoming frames, each paired with the
rate limiter's verdict for it.  Frames after a server-side close are never
received; an escaped exception aborts the loop at once. -/
def runFrames (ws : Sid) (a : App) (ext : Ext) :
    List (Frame × Bool) → LoopExit × List SendEvent
  | [] => (LoopExit.finished, [])
  | (f, ex) :: rest =>
    match stepFrame ws a ext f ex with
    | StepOut.cont evs _ =>
      let r := runFrames ws a ext rest
      (r.1, evs ++ r.2)
    | StepOut.closed => (LoopExit.serverClosed, [])
    | StepOut.crashed => (LoopExit.crashed, [])

/-- The outcome of one session after the handler returns or dies: how the
loop ended, the deliveries made, the final shared state, and how many times
the teardown `websockets.remove(ws)` statement actually executed. -/
structure SessionResult where
  exit : LoopExit
  events : List SendEvent
  app : App
  removalCount : Nat

/-- Websocket.get from the successful upgrade on (websocket.py lines
35-70): register the socket and its color, push the `userColor` message,
run the receive loop, and then — only when no exception escaped the loop —
execute `self.request.app['websockets'].remove(ws)` (line 68), which is not
inside any `try`/`finally`. -/
def sessionRun (ws : Sid) (c : Color) (frames : List (Frame × Bool))
    (a0 : App) (ext : Ext) : SessionResult :=
  let a1 := registerSession a0 ws c
  match sendJson ext.sendFails ws (userColorMsg c) with
  | Option.none => { exit := LoopExit.crashed, events := [], app := a1, removalCount := 0 }
  | some ev0 =>
    let r := runFrames ws a1 ext frames
    match r.1 with
    | LoopExit.crashed =>
      { exit := LoopExit.crashed, events := ev0 :: r.2, app := a1, removalCount := 0 }
    | e =>
      match pythonListRemove a1.websockets ws with
      | Except.ok l =>
        { exit := e, events := ev0 :: r.2,
          app := { websockets := l, websockets_colors := a1.websockets_colors },
          removalCount := 1 }
      | Except.error _ =>
        { exit := LoopExit.crashed, events := ev0 :: r.2, app := a1, removalCount := 0 }

/-- The registry states reachable by any interleaving of session
registrations (websocket.py lines 35-36) and teardowns (line 68): a
teardown removes the socket from `websockets` only — no statement in the
source ever deletes from `websockets_colors`. -/
inductive Reachable : App → Prop where
  | init : Reachable { websockets := [], websockets_colors := [] }
  | register (a : App) (s : Sid) (c : Color) :
      Reachable a → Reachable (registerSession a s c)
  | teardown (a : App) (s : Sid) (l : List Sid) :
      Reachable a → pythonListRemove a.websockets s = Except.ok l →
      Reachable { websockets := l, websockets_colors := a.websockets_colors }

/-- The validity test of websocket.py line 83: the parsed message is a dict
and carries both a `type` and an `args` key. -/
def envelopeWellFormed (data : PyVal) : Bool :=
  match data with
  | PyVal.dict fs => (dictGet fs "type").isSome && (dictGet fs "args").isSome
  | _ => false

/-- The `meta` entry of an outbound message, when it has one. -/
def msgMeta (msg : PyVal) : Option PyVal :=
  match msg with
  | PyVal.dict fs => dictGet fs "meta"
  | _ => Option.none

/-- A concrete oracle bundle for evaluating the handler: the store answers
an empty range query, accepts every payload, stamps timestamp 5, every
socket send succeeds, and the limiter is configured for 10 requests. -/
def extOk : Ext :=
  { query := fun _ _ _ => PyVal.list [],
    verify := fun _ => true,
    store := fun _ => StoreResult.ok 5,
    sendFails := fun _ => false,
    reqLimit := 10 }

/-- A concrete registry holding the single session `0` with color red. -/
def appW : App := { websockets := [0], websockets_colors := [(0, "red")] }

/-- A text frame whose payload parses to a dict whose `type` is the number
123: line 83 accepts it (it is a dict with `type` and `args`), and then
line 87 runs `data['type'].lower()` on an int, raising `AttributeError`. -/
def badTypeFrame : Frame :=
  Frame.text "\x7b\"type\": 123, \"args\": \x7b\x7d\x7d"
    (some (PyVal.dict [("type", PyVal.int 123), ("args", PyVal.dict [])]))

/-- Helper: a registered socket whose send does not raise receives the
broadcast message, whatever other sockets in the loop do. -/
theorem broadcastLoop_mem (sessions : List Sid) (msg : PyVal) (fails : Sid → Bool)
    (hser : serializable msg = true) (s : Sid) (hs : s ∈ sessions)
    (hok : fails s = false) :
    SendEvent.mk s msg ∈ broadcastLoop sessions msg fails := by
  induction sessions with
  | nil => cases hs
  | cons x xs ih =>
    rcases List.mem_cons.mp hs with h | h
    · subst h
      simp [broadcastLoop, sendJson, hok, hser]
    · cases hx : sendJson fails x msg with
      | none => simpa [broadcastLoop, hx] using ih h
      | some ev =>
        simp only [broadcastLoop, hx, List.mem_cons]
        exact Or.inr (ih h)

/-- Helper: every message delivered by the broadcast loop is the broadcast
message itself. -/
theorem broadcastLoop_msg (l : List Sid) (msg : PyVal) (fails : Sid → Bool)
    (e : SendEvent) (he : e ∈ broadcastLoop l msg fails) : e.msg = msg := by
  induction l with
  | nil => cases he
  | cons x xs ih =>
    cases hx : sendJson fails x msg with
    | none =>
      rw [broadcastLoop, hx] at he
      exact ih he
    | some ev =>
      rw [broadcastLoop, hx] at he
      rcases List.mem_cons.mp he with h | h
      · subst h
        unfold sendJson at hx
        split at hx
        · exact Option.noConfusion hx
        · cases Option.some.inj hx
          rfl
      · exact ih h

/-- C1: if sending to one registered recipient raises a delivery failure,
every other registered session still receives the data/meta broadcast
message, and `broadcast` itself leaves the Connection Registry (both the
socket list and the color map) untouched, so the failing session is still
registered afterwards. -/
theorem broadcast_isolates_failure (v : Voxel) (a : App) (m : Meta)
    (fails : Sid → Bool) (t : Sid)
    (hser : serializable (broadcastMessage v m) = true)
    (ht : t ∈ a.websockets) (_htf : fails t = true)
    (s : Sid) (hs : s ∈ a.websockets) (hsf : fails s = false) :
    SendEvent.mk s (broadcastMessage v m) ∈ (broadcast v a m fails).1.events ∧
    (broadcast v a m fails).2 = a ∧
    t ∈ (broadcast v a m fails).2.websockets :=
  ⟨broadcastLoop_mem a.websockets (broadcastMessage v m) fails hser s hs hsf,
   rfl, ht⟩

/-- Witness for C1 at a concrete three-socket registry where socket 1's
send raises: socket 2 still receives the message and the registry is
unchanged. -/
theorem broadcast_isolates_failure_witness :
    SendEvent.mk 2 (broadcastMessage ⟨1, 2, "red", "", 0⟩ ⟨PyVal.nil, "update"⟩) ∈
      (broadcast ⟨1, 2, "red", "", 0⟩ ⟨[0, 1, 2], [(0, "red")]⟩ ⟨PyVal.nil, "update"⟩
        (fun s => s == 1)).1.events ∧
    (broadcast ⟨1, 2, "red", "", 0⟩ ⟨[0, 1, 2], [(0, "red")]⟩ ⟨PyVal.nil, "update"⟩
        (fun s => s == 1)).2 = ⟨[0, 1, 2], [(0, "red")]⟩ ∧
    1 ∈ (broadcast ⟨1, 2, "red", "", 0⟩ ⟨[0, 1, 2], [(0, "red")]⟩ ⟨PyVal.nil, "update"⟩
        (fun s => s == 1)).2.websockets :=
  broadcast_isolates_failure ⟨1, 2, "red", "", 0⟩ ⟨[0, 1, 2], [(0, "red")]⟩
    ⟨PyVal.nil, "update"⟩ (fun s => s == 1) 1 rfl (by decide) rfl 2 (by decide) rfl

/-- C10: a non-close text frame received with the rate limit not exceeded
whose payload fails JSON parsing produces no outbound message, dispatches
nothing (no broadcast), and leaves the receive loop running (the session
stays Active). -/
theorem malformed_json_silently_ignored (ws : Sid) (a : App) (ext : Ext)
    (raw : String) (h : raw ≠ "close") :
    stepFrame ws a ext (Frame.text raw Option.none) false = StepOut.cont [] [] := by
  simp [stepFrame, h]

/-- Witness for C10 at the concrete malformed payload `notjson`. -/
theorem malformed_json_silently_ignored_witness :
    stepFrame 0 appW extOk (Frame.text "notjson" Option.none) false
      = StepOut.cont [] [] :=
  malformed_json_silently_ignored 0 appW extOk "notjson" (by decide)

/-- C4 counterexample: removing session 0 from a registry that does not
hold it raises `ValueError` (the error outcome of `list.remove`) instead of
being a no-op that returns the registry unchanged. -/
theorem remove_absent_raises_counterexample :
    pythonListRemove [1] 0 = Except.error () ∧
    pythonListRemove [1] 0 ≠ Except.ok [1] :=
  ⟨rfl, fun h => Except.noConfusion h⟩

/-- C4 amended: removing an already-absent session from the Connection
Registry raises `ValueError` — it is an error, not a no-op — and since the
raise leaves the socket list unchanged, a subsequent broadcast still
reaches every remaining registered session whose send does not fail. -/
theorem remove_absent_raises (l : List Sid) (s : Sid) (hs : s ∉ l) :
    pythonListRemove l s = Except.error () ∧
    ∀ (msg : PyVal) (fails : Sid → Bool), serializable msg = true →
      ∀ t ∈ l, fails t = false →
        SendEvent.mk t msg ∈ broadcastLoop l msg fails := by
  refine ⟨?_, fun msg fails hser t ht htf =>
    broadcastLoop_mem l msg fails hser t ht htf⟩
  induction l with
  | nil => rfl
  | cons x xs ih =>
    rw [List.mem_cons, not_or] at hs
    rw [pythonListRemove, if_neg (fun h => hs.1 h.symm), ih hs.2]

/-- Witness for C4 at the concrete registry `[1]` and absent session 0:
the removal errors, and session 1 still receives a subsequent broadcast. -/
theorem remove_absent_raises_witness :
    (pythonListRemove [1] 0 = Except.error () ∧
      ∀ (msg : PyVal) (fails : Sid → Bool), serializable msg = true →
        ∀ t ∈ [1], fails t = false →
          SendEvent.mk t msg ∈ broadcastLoop [1] msg fails) :=
  remove_absent_raises [1] 0 (by decide)

/-- C3: evaluating the handler at a session that receives the single text
frame whose JSON payload is a dict with the number 123 as its `type`:
`data['type'].lower()` raises `AttributeError`, the exception escapes the
receive loop, and because line 68's `websockets.remove(ws)` is not in a
`finally`, the removal never executes — the dead session 0 stays in the
registry, contradicting removal-exactly-once on abnormal exit. -/
theorem session_abnormal_exit_skips_removal :
    (sessionRun 0 "red" [(badTypeFrame, false)] ⟨[], []⟩ extOk).exit
        = LoopExit.crashed ∧
    (sessionRun 0 "red" [(badTypeFrame, false)] ⟨[], []⟩ extOk).removalCount = 0 ∧
    0 ∈ (sessionRun 0 "red" [(badTypeFrame, false)] ⟨[], []⟩ extOk).app.websockets :=
  ⟨rfl, rfl, by decide⟩

/-- Helper: projecting the color out of an optional map entry keeps
definedness. -/
theorem isSome_map_snd (o : Option (Sid × Color)) :
    (o.map (fun kv => kv.2)).isSome = o.isSome := by
  cases o <;> rfl

/-- Helper: assigning a color keeps every previously present key of the
color map present. -/
theorem dictSetColor_preserves (mcol : List (Sid × Color)) (k s : Sid) (c : Color)
    (h : ((mcol.find? (fun kv => kv.1 == s)).map (fun kv => kv.2)).isSome = true) :
    (((dictSetColor mcol k c).find? (fun kv => kv.1 == s)).map
        (fun kv => kv.2)).isSome = true := by
  rw [isSome_map_snd, List.find?_isSome] at h ⊢
  obtain ⟨kv, hkv, hp⟩ := h
  unfold dictSetColor
  split
  · by_cases hk : kv.1 == k
    · exact ⟨(k, c), List.mem_map.mpr ⟨kv, hkv, by simp [hk]⟩,
        by simpa using ((beq_iff_eq.mp hk).symm.trans (beq_iff_eq.mp hp)) ▸ rfl⟩
    · exact ⟨kv, List.mem_map.mpr ⟨kv, hkv, by simp [hk]⟩, hp⟩
  · exact ⟨kv, List.mem_append_left _ hkv, hp⟩

/-- Helper: after assigning a color for key `k`, key `k` is present. -/
theorem dictSetColor_self (mcol : List (Sid × Color)) (k : Sid) (c : Color) :
    (((dictSetColor mcol k c).find? (fun kv => kv.1 == k)).map
        (fun kv => kv.2)).isSome = true := by
  rw [isSome_map_snd, List.find?_isSome]
  unfold dictSetColor
  split
  case isTrue h =>
    obtain ⟨kv, hkv, hp⟩ := List.any_eq_true.mp h
    exact ⟨(k, c), List.mem_map.mpr ⟨kv, hkv, by simp [hp]⟩, by simp⟩
  case isFalse h =>
    exact ⟨(k, c), List.mem_append_right _ (List.mem_singleton.mpr rfl), by simp⟩

/-- Helper: a successful `list.remove` only deletes; every survivor was
already in the list. -/
theorem pythonListRemove_mem (l l2 : List Sid) (s t : Sid)
    (h : pythonListRemove l s = Except.ok l2) (ht : t ∈ l2) : t ∈ l := by
  induction l generalizing l2 with
  | nil => exact Except.noConfusion h
  | cons x xs ih =>
    rw [pythonListRemove] at h
    split at h
    · cases Except.ok.inj h
      exact List.mem_cons_of_mem x ht
    · cases hrec : pythonListRemove xs s with
      | error e => rw [hrec] at h; exact Except.noConfusion h
      | ok ys =>
        rw [hrec] at h
        cases Except.ok.inj h
        rcases List.mem_cons.mp ht with h1 | h1
        · exact h1 ▸ List.mem_cons_self x xs
        · exact List.mem_cons_of_mem x (ih ys hrec h1)

/-- C5 counterexample: after registering session 0 with color red and then
tearing it down — a reachable registry state — session 0 is still present
in the color map but no longer in the live socket set, refuting the
two-way membership invariant. -/
theorem registry_color_leak :
    Reachable { websockets := [], websockets_colors := [(0, "red")] } ∧
    lookupColor { websockets := [], websockets_colors := [(0, "red")] } 0
        = some "red" ∧
    0 ∉ ({ websockets := [], websockets_colors := [(0, "red")] } : App).websockets := by
  refine ⟨?_, rfl, by decide⟩
  exact Reachable.teardown (registerSession { websockets := [], websockets_colors := [] } 0 "red")
    0 [] (Reachable.register _ 0 "red" Reachable.init) rfl

/-- C5 amended: one direction of the invariant does hold on every reachable
registry state — every session in the live socket set has an entry in the
color map.  The converse fails because teardown never deletes from
`websockets_colors`. -/
theorem reachable_live_subset_colors (a : App) (h : Reachable a) :
    ∀ s ∈ a.websockets, (lookupColor a s).isSome = true := by
  induction h with
  | init => intro s hs; cases hs
  | register a' s' c' _ ih =>
    intro s hs
    rcases List.mem_append.mp hs with h1 | h1
    · exact dictSetColor_preserves a'.websockets_colors s' s c' (ih s h1)
    · rw [List.mem_singleton.mp h1]
      exact dictSetColor_self a'.websockets_colors s' c'
  | teardown a' s' l _ hrem ih =>
    intro s hs
    exact ih s (pythonListRemove_mem a'.websockets l s' s hrem hs)

/-- Witness for C5's amended invariant at the concrete reachable state
holding the single registered session 0. -/
theorem reachable_live_subset_colors_witness :
    (lookupColor (registerSession { websockets := [], websockets_colors := [] } 0 "red")
        0).isSome = true :=
  reachable_live_subset_colors
    (registerSession { websockets := [], websockets_colors := [] } 0 "red")
    (Reachable.register _ 0 "red" Reachable.init) 0 (by decide)

/-- C6 counterexample: dispatching a parsed message that is not a mapping
(a JSON array) produces no outbound message at all — in particular no error
envelope reaches the requesting session — refuting the claim that an error
envelope is sent. -/
theorem malformed_envelope_no_error_sent :
    process_request (PyVal.list []) 0 appW extOk
      = some { events := [], broadcasts := [] } := rfl

/-- C6 amended: for every parsed message that is not a mapping or lacks the
`type` or `args` key, the dispatcher neither dispatches to any handler nor
sends anything: it builds an error dict and returns it to a caller that
discards it, so the requesting session receives no error envelope. -/
theorem malformed_envelope_silently_dropped (data : PyVal) (ws : Sid) (a : App)
    (ext : Ext) (h : envelopeWellFormed data = false) :
    process_request data ws a ext = some { events := [], broadcasts := [] } := by
  cases data with
  | dict fs =>
    rw [envelopeWellFormed] at h
    rw [process_request]
    cases ht : dictGet fs "type" with
    | none => rfl
    | some tVal =>
      cases ha : dictGet fs "args" with
      | none => rfl
      | some args => rw [ht, ha] at h; simp at h
  | nil => rfl
  | bool b => rfl
  | int n => rfl
  | str s => rfl
  | list xs => rfl
  | pyset xs => rfl

/-- Witness for C6's amended claim at the concrete non-mapping payload. -/
theorem malformed_envelope_silently_dropped_witness :
    process_request (PyVal.int 3) 0 appW extOk
      = some { events := [], broadcasts := [] } :=
  malformed_envelope_silently_dropped (PyVal.int 3) 0 appW extOk rfl

/-- C7: for the well-formed envelope with unknown type `foo`, the envelope
the code builds carries as its error message the Python set literal holding
the string `Unknown method or no method specified` — not that string — and
because a set is not JSON-serializable, `send_json` raises `TypeError`, so
no error envelope is ever delivered to the session (the dispatcher dies
with an escaped exception instead). -/
theorem unknown_method_message_is_set :
    unknownMethodEnvelope { id := PyVal.int 7, type := "foo" }
      = PyVal.dict
          [("error", PyVal.dict
              [("message", PyVal.pyset ["Unknown method or no method specified"])]),
           ("meta", PyVal.dict [("id", PyVal.int 7), ("type", PyVal.str "foo")])] ∧
    PyVal.pyset ["Unknown method or no method specified"]
      ≠ PyVal.str "Unknown method or no method specified" ∧
    process_request
      (PyVal.dict [("id", PyVal.int 7), ("type", PyVal.str "foo"),
                   ("args", PyVal.dict [])])
      0 appW extOk = Option.none :=
  ⟨rfl, fun h => PyVal.noConfusion h, rfl⟩

/-- Helper: the warning envelope is an ordinary string-carrying dict, so
`json.dumps` accepts it. -/
theorem serializable_warnEnvelope (n : Nat) :
    serializable (warnEnvelope n) = true := by
  simp [warnEnvelope, serializable, serializableFields]

/-- C9 counterexample: a text frame equal to `close` received while the
rate limiter reports the limit exceeded does not close the session — the
step sends the warning envelope and continues the loop — refuting the claim
that the close sentinel acts regardless of rate-limiter state. -/
theorem close_frame_blocked_by_limiter :
    stepFrame 0 appW extOk (Frame.text "close" Option.none) true
      = StepOut.cont [{ target := 0, msg := warnEnvelope 10 }] [] ∧
    stepFrame 0 appW extOk (Frame.text "close" Option.none) true
      ≠ StepOut.closed :=
  ⟨rfl, fun h => StepOut.noConfusion h⟩

/-- C9 amended: the receive loop consults the rate limiter for every
received frame first — when the limit is exceeded it sends the warning
envelope and skips the frame entirely, close sentinel included — and only
when the limit is not exceeded does a `close` text frame perform the
graceful close (with nothing sent and nothing dispatched). -/
theorem limiter_checked_before_close (ws : Sid) (a : App) (ext : Ext)
    (hok : ext.sendFails ws = false) :
    (∀ f, stepFrame ws a ext f true
        = StepOut.cont [{ target := ws, msg := warnEnvelope ext.reqLimit }] []) ∧
    (∀ parsed, stepFrame ws a ext (Frame.text "close" parsed) false
        = StepOut.closed) := by
  constructor
  · intro f
    simp [stepFrame, sendJson, hok, serializable_warnEnvelope]
  · intro parsed
    simp [stepFrame]

/-- Witness for C9's amended claim: with no send failure, an exceeded
verdict on an error-type frame yields exactly the warning, and `close` with
the limit free closes. -/
theorem limiter_checked_before_close_witness :
    (∀ f, stepFrame 0 appW extOk f true
        = StepOut.cont [{ target := 0, msg := warnEnvelope extOk.reqLimit }] []) ∧
    (∀ parsed, stepFrame 0 appW extOk (Frame.text "close" parsed) false
        = StepOut.closed) :=
  limiter_checked_before_close 0 appW extOk rfl

/-- Helper: after a Python dict assignment, looking the key up yields the
assigned value. -/
theorem dictGet_dictSet_self (l : List (String × PyVal)) (k : String) (v : PyVal) :
    dictGet (dictSet l k v) k = some v := by
  induction l with
  | nil => simp [dictSet, dictGet]
  | cons hd tl ih =>
    rw [dictSet]
    by_cases hk : hd.1 == k
    · rw [if_pos (by simp [List.any_cons, hk])]
      simp only [List.map_cons, hk, if_true]
      simp [dictGet, List.find?_cons_of_pos]
    · have hk' : (hd.1 == k) = false := by simpa using hk
      by_cases ha : tl.any (fun kv => kv.1 == k) = true
      · rw [if_pos (by simp [List.any_cons, hk', ha])]
        simp only [List.map_cons, hk', if_false]
        rw [dictGet, List.find?_cons_of_neg _ (by simp [hk']), ← dictGet]
        have h2 := ih
        rw [dictSet, if_pos ha] at h2
        exact h2
      · rw [if_neg (by simp [List.any_cons, hk', ha])]
        rw [List.cons_append, dictGet, List.find?_cons_of_neg _ (by simp [hk']),
          ← dictGet]
        have h2 := ih
        rw [dictSet, if_neg ha] at h2
        exact h2

/-- Helper: a successful Voxel construction read its `owner` keyword out of
the argument dict. -/
theorem mkVoxel_owner (fields : List (String × PyVal)) (v : Voxel)
    (h : mkVoxel fields = some v) :
    dictGet fields "owner" = some (PyVal.str v.owner) := by
  rw [mkVoxel] at h
  split at h
  · split at h
    · cases Option.some.inj h
      assumption
    · exact Option.noConfusion h
  · exact Option.noConfusion h

/-- Helper: the broadcast projection keeps the `owner` field. -/
theorem broadcastProjection_owner (v : Voxel) :
    dictGet (broadcastProjection v) "owner" = some (PyVal.str v.owner) := by
  by_cases h : v.name = "" <;>
    simp only [broadcastProjection, h, if_true, if_false] <;> rfl

/-- C2: for an update whose args pass payload validation, whose submitting
session has a registered color, whose voxel construction succeeds, and
whose store upsert succeeds, `place` invokes `broadcast` exactly once, the
broadcast data's `owner` equals the submitter's registered color, and when
no socket send fails the message is delivered to every session currently in
the registry, the submitter included. -/
theorem place_broadcasts_once (af : List (String × PyVal)) (ws : Sid) (a : App)
    (ext : Ext) (m : Meta) (color : Color) (v : Voxel) (stamp : Int)
    (hcol : lookupColor a ws = some color)
    (hver : ext.verify (dictPop af "name") = true)
    (hmk : mkVoxel (dictSet (dictPop af "name") "owner" (PyVal.str color)) = some v)
    (hst : ext.store v = StoreResult.ok stamp)
    (hser : serializable (broadcastMessage { v with updated := stamp } m) = true)
    (hok : ∀ s ∈ a.websockets, ext.sendFails s = false)
    (hws : ws ∈ a.websockets) :
    place (PyVal.dict af) ws a ext m
        = some { events := broadcastLoop a.websockets
                   (broadcastMessage { v with updated := stamp } m) ext.sendFails,
                 broadcasts := [({ v with updated := stamp }, m)] } ∧
    (∀ s ∈ a.websockets,
      SendEvent.mk s (broadcastMessage { v with updated := stamp } m) ∈
        broadcastLoop a.websockets
          (broadcastMessage { v with updated := stamp } m) ext.sendFails) ∧
    SendEvent.mk ws (broadcastMessage { v with updated := stamp } m) ∈
      broadcastLoop a.websockets
        (broadcastMessage { v with updated := stamp } m) ext.sendFails ∧
    dictGet (broadcastProjection { v with updated := stamp }) "owner"
        = some (PyVal.str color) := by
  have howner : v.owner = color := by
    have h1 := mkVoxel_owner _ v hmk
    rw [dictGet_dictSet_self] at h1
    cases Option.some.inj h1
    rfl
  refine ⟨?_, ?_, ?_, ?_⟩
  · simp only [place, hver, hcol, hmk, hst, broadcast]
    simp
  · intro s hs
    exact broadcastLoop_mem _ _ _ hser s hs (hok s hs)
  · exact broadcastLoop_mem _ _ _ hser ws hws (hok ws hws)
  · rw [broadcastProjection_owner, howner]

/-- Witness for C2: session 0 (color red) submits an update with x=1, y=2
into a registry holding sessions 0 and 1; the stored voxel is broadcast
once, carries owner red, and reaches both sessions. -/
theorem place_broadcasts_once_witness :
    place (PyVal.dict [("x", PyVal.int 1), ("y", PyVal.int 2)]) 0
        { websockets := [0, 1], websockets_colors := [(0, "red")] } extOk
        ⟨PyVal.nil, "update"⟩
      = some { events := broadcastLoop [0, 1]
                 (broadcastMessage ⟨1, 2, "red", "", 5⟩ ⟨PyVal.nil, "update"⟩)
                 extOk.sendFails,
               broadcasts := [(⟨1, 2, "red", "", 5⟩, ⟨PyVal.nil, "update"⟩)] } ∧
    (∀ s ∈ [0, 1],
      SendEvent.mk s (broadcastMessage ⟨1, 2, "red", "", 5⟩ ⟨PyVal.nil, "update"⟩) ∈
        broadcastLoop [0, 1]
          (broadcastMessage ⟨1, 2, "red", "", 5⟩ ⟨PyVal.nil, "update"⟩)
          extOk.sendFails) ∧
    SendEvent.mk 0 (broadcastMessage ⟨1, 2, "red", "", 5⟩ ⟨PyVal.nil, "update"⟩) ∈
      broadcastLoop [0, 1]
        (broadcastMessage ⟨1, 2, "red", "", 5⟩ ⟨PyVal.nil, "update"⟩)
        extOk.sendFails ∧
    dictGet (broadcastProjection ⟨1, 2, "red", "", 5⟩) "owner"
        = some (PyVal.str "red") :=
  place_broadcasts_once [("x", PyVal.int 1), ("y", PyVal.int 2)] 0
    { websockets := [0, 1], websockets_colors := [(0, "red")] } extOk
    ⟨PyVal.nil, "update"⟩ "red" ⟨1, 2, "red", "", 0⟩ 5
    rfl rfl rfl rfl rfl (fun s _ => rfl) (by decide)

/-- Helper: when the single-response send pattern succeeds, the result is
exactly one delivery of the given message to the requesting socket. -/
theorem sendOnly_eq (fails : Sid → Bool) (ws : Sid) (msg : PyVal)
    (r : DispatchResult) (h : sendOnly fails ws msg = some r) :
    r = { events := [{ target := ws, msg := msg }], broadcasts := [] } := by
  rw [sendOnly] at h
  cases hs : sendJson fails ws msg with
  | none => rw [hs] at h; exact Option.noConfusion h
  | some ev =>
    rw [hs] at h
    cases Option.some.inj h
    rw [sendJson] at hs
    split at hs
    · exact Option.noConfusion hs
    · cases Option.some.inj hs
      rfl

/-- C8 counterexample: a well-formed range request whose `type` is spelled
`RANGE` is answered with `meta.type` equal to the lowercased string
`range`, not the request envelope's own `type` string — so `type` is not
copied verbatim from the request. -/
theorem meta_type_not_copied_verbatim :
    process_request
        (PyVal.dict [("id", PyVal.int 1), ("type", PyVal.str "RANGE"),
                     ("args", PyVal.dict [])]) 0 appW extOk
      = some (DispatchResult.mk
          [SendEvent.mk 0 (PyVal.dict
            [("data", PyVal.list []),
             ("meta", PyVal.dict [("id", PyVal.int 1), ("type", PyVal.str "range")])])]
          []) ∧
    ("range" : String) ≠ "RANGE" :=
  ⟨rfl, by decide⟩

/-- C8 amended: for every well-formed dispatched request (a dict envelope
whose `type` is a string), every response the dispatcher successfully sends
to the requesting session — success or error — carries
`meta = dict of id and type` where `id` is copied from the request and
`type` is the case-normalized (lowercased) request type. -/
theorem responses_carry_request_meta (fs : List (String × PyVal)) (ws : Sid)
    (a : App) (ext : Ext) (t : String) (r : DispatchResult)
    (ht : dictGet fs "type" = some (PyVal.str t))
    (h : process_request (PyVal.dict fs) ws a ext = some r) :
    ∀ e ∈ r.events, e.target = ws →
      msgMeta e.msg
        = some (metaToVal { id := dictGetD fs "id" PyVal.nil, type := pyLower t }) := by
  intro e he htarget
  cases ha : dictGet fs "args" with
  | none =>
    simp only [process_request, ht, ha] at h
    cases h
    simp at he
  | some args =>
    simp only [process_request, ht, ha] at h
    by_cases hrange : pyLower t = "range"
    · rw [if_pos hrange] at h
      cases args with
      | dict af =>
        simp only [retrieve] at h
        cases sendOnly_eq _ _ _ _ h
        rcases List.mem_singleton.mp he with rfl
        rfl
      | nil => exact Option.noConfusion h
      | bool b => exact Option.noConfusion h
      | int n => exact Option.noConfusion h
      | str s => exact Option.noConfusion h
      | list xs => exact Option.noConfusion h
      | pyset xs => exact Option.noConfusion h
    · rw [if_neg hrange] at h
      by_cases hupdate : pyLower t = "update"
      · rw [if_pos hupdate] at h
        cases args with
        | dict af0 =>
          simp only [place] at h
          by_cases hver : ext.verify (dictPop af0 "name") = false
          · rw [if_pos hver] at h
            cases sendOnly_eq _ _ _ _ h
            rcases List.mem_singleton.mp he with rfl
            rfl
          · rw [if_neg hver] at h
            cases hcol : lookupColor a ws with
            | none =>
              simp only [hcol] at h
              cases sendOnly_eq _ _ _ _ h
              rcases List.mem_singleton.mp he with rfl
              rfl
            | some color =>
              simp only [hcol] at h
              cases hmk : mkVoxel (dictSet (dictPop af0 "name") "owner"
                  (PyVal.str color)) with
              | none =>
                simp only [hmk] at h
                exact Option.noConfusion h
              | some v =>
                simp only [hmk] at h
                cases hst : ext.store v with
                | ok stamp =>
                  simp only [hst] at h
                  cases Option.some.inj h
                  have hmsg := broadcastLoop_msg _ _ _ e he
                  rw [hmsg]
                  rfl
                | errPlain s =>
                  simp only [hst] at h
                  cases sendOnly_eq _ _ _ _ h
                  rcases List.mem_singleton.mp he with rfl
                  rfl
                | errStructured d =>
                  simp only [hst] at h
                  cases sendOnly_eq _ _ _ _ h
                  rcases List.mem_singleton.mp he with rfl
                  rfl
        | nil => exact Option.noConfusion h
        | bool b => exact Option.noConfusion h
        | int n => exact Option.noConfusion h
        | str s => exact Option.noConfusion h
        | list xs => exact Option.noConfusion h
        | pyset xs => exact Option.noConfusion h
      · rw [if_neg hupdate] at h
        cases sendOnly_eq _ _ _ _ h
        rcases List.mem_singleton.mp he with rfl
        rfl

/-- Witness for C8's amended claim: the response to the concrete `RANGE`
request of session 0 carries meta with the request's id 1 and the
lowercased type `range`. -/
theorem responses_carry_request_meta_witness :
    msgMeta (PyVal.dict
        [("data", PyVal.list []),
         ("meta", PyVal.dict [("id", PyVal.int 1), ("type", PyVal.str "range")])])
      = some (metaToVal { id := PyVal.int 1, type := "range" }) :=
  responses_carry_request_meta
    [("id", PyVal.int 1), ("type", PyVal.str "RANGE"), ("args", PyVal.dict [])]
    0 appW extOk "RANGE"
    (DispatchResult.mk
      [SendEvent.mk 0 (PyVal.dict
        [("data", PyVal.list []),
         ("meta", PyVal.dict [("id", PyVal.int 1), ("type", PyVal.str "range")])])]
      [])
    rfl rfl
    (SendEvent.mk 0 (PyVal.dict
        [("data", PyVal.list []),
         ("meta", PyVal.dict [("id", PyVal.int 1), ("type", PyVal.str "range")])]))
    (List.Mem.head _) rfl

end Turg
